import Mathlib

/-!
# M5Stack Tab5 LVGL demo: value propagation, draw buffers and the tick loop

A shallow embedding of `src/main.cpp`.  Global variables of the sketch become
fields of explicit state records, every callback becomes a function from
state to state, and the calls into the two collaborating libraries (the GUI
toolkit and the board support package) are either stores into the record
(widget values, label texts) or entries of an action log.
-/

namespace Tab5Demo

/-! ## Machine integers -/

/-- Value stored in a 32-bit two's complement `int` when the mathematical
result of an operation is `x` (the target's add instruction wraps; inside
the range of `int` this is the identity). -/
def wrap_int32 (x : Int) : Int := (x + 2147483648) % 4294967296 - 2147483648

/-- Text produced by the printf conversion `%d`. -/
def fmt_d (v : Int) : String := toString v

/-! ## Widget state and the value-propagation callbacks -/

/-- Event codes of the GUI toolkit, as far as the callbacks tell them apart. -/
inductive lv_event_code_t
  | LV_EVENT_PRESSED
  | LV_EVENT_RELEASED
  | LV_EVENT_CLICKED
  | LV_EVENT_VALUE_CHANGED
  | LV_EVENT_OTHER (n : Nat)
  deriving DecidableEq, Repr

/-- The globals the widget callbacks read and write.  `slider_obj` and `arc`
stand for the values held by the two widgets, the three labels for the texts
they display. -/
structure UiState where
  slider_obj : Int
  arc : Int
  slider_label : String
  arc_value_label : String
  counter_label : String
  tap_count : Int
  deriving DecidableEq, Repr

/-- `lv_label_set_text_fmt(counter_label, "Taps: %d", tap_count)`. -/
def update_counter_label (s : UiState) : UiState :=
  { s with counter_label := "Taps: " ++ fmt_d s.tap_count }

/-- `set_demo_value(int value)`: clamp, then write slider, arc and both labels. -/
def set_demo_value (s : UiState) (value : Int) : UiState :=
  let value := if value < 0 then 0 else value
  let value := if value > 100 then 100 else value
  { s with
    slider_obj := value
    arc := value
    slider_label := "Slider: " ++ fmt_d value
    arc_value_label := fmt_d value }

/-- `on_tap_button(e)` for an event whose code is `code`. -/
def on_tap_button (s : UiState) (code : lv_event_code_t) : UiState :=
  if code = lv_event_code_t.LV_EVENT_CLICKED then
    let s := { s with tap_count := wrap_int32 (s.tap_count + 1) }
    let s := update_counter_label s
    let current := s.arc
    let next := wrap_int32 (current + 10)
    let next := if next > 100 then 0 else next
    set_demo_value s next
  else s

/-- `on_slider_change(e)`: the event target is the slider. -/
def on_slider_change (s : UiState) (code : lv_event_code_t) : UiState :=
  if code = lv_event_code_t.LV_EVENT_VALUE_CHANGED then
    let value := s.slider_obj
    set_demo_value s value
  else s

/-- `on_arc_change(e)`: the event target is the arc. -/
def on_arc_change (s : UiState) (code : lv_event_code_t) : UiState :=
  if code = lv_event_code_t.LV_EVENT_VALUE_CHANGED then
    let value := s.arc
    set_demo_value s value
  else s

/-- The widget part of `setup()`, in source order: the counter label is
filled from `tap_count = 0`, the slider is set to 20, its label to
"Slider: 20", the arc to 20 and its label to "20". -/
def setup_widgets : UiState :=
  let s : UiState :=
    { slider_obj := 0, arc := 0, slider_label := "", arc_value_label := "",
      counter_label := "", tap_count := 0 }
  let s := update_counter_label s
  let s := { s with slider_obj := 20 }
  let s := { s with slider_label := "Slider: 20" }
  let s := { s with arc := 20 }
  { s with arc_value_label := "20" }

/-- What the toolkit can deliver to the three callbacks.  A change event
carries the value the user dragged the widget to: the toolkit stores it in
the widget and then sends `LV_EVENT_VALUE_CHANGED`. -/
inductive UiEvent
  | button_event (code : lv_event_code_t)
  | slider_changed (v : Int)
  | arc_changed (v : Int)
  | slider_event (code : lv_event_code_t)
  | arc_event (code : lv_event_code_t)
  deriving DecidableEq, Repr

/-- Dispatch of one event to its callback. -/
def ui_step (s : UiState) : UiEvent → UiState
  | UiEvent.button_event code => on_tap_button s code
  | UiEvent.slider_changed v =>
      on_slider_change { s with slider_obj := v } lv_event_code_t.LV_EVENT_VALUE_CHANGED
  | UiEvent.arc_changed v =>
      on_arc_change { s with arc := v } lv_event_code_t.LV_EVENT_VALUE_CHANGED
  | UiEvent.slider_event code => on_slider_change s code
  | UiEvent.arc_event code => on_arc_change s code

/-- A sequence of events handled one after the other. -/
def ui_run (s : UiState) (evs : List UiEvent) : UiState := evs.foldl ui_step s

/-- Slider, arc and both labels all display the number `v`. -/
def shows (s : UiState) (v : Int) : Prop :=
  s.slider_obj = v ∧ s.arc = v ∧
    s.slider_label = "Slider: " ++ fmt_d v ∧ s.arc_value_label = fmt_d v

/-- Number of completed clicks in an event sequence. -/
def clicks (evs : List UiEvent) : Nat :=
  evs.count (UiEvent.button_event lv_event_code_t.LV_EVENT_CLICKED)

/-! ## Draw buffers -/

/-- Width of `size_t` and of pointers on the target (an ILP32 microcontroller). -/
def size_t_bits : Nat := 32

/-- The heap behind `heap_caps_malloc` and `heap_caps_free`: any state
machine.  An allocation returns an address, or `none` for the null pointer. -/
structure Heap (σ : Type) where
  heap_caps_malloc : σ → Nat → Option Nat × σ
  heap_caps_free : σ → Nat → σ

/-- The three buffer globals; `none` is `nullptr`. -/
structure DrawGlobals where
  buf1 : Option Nat
  buf2 : Option Nat
  draw_buf_pixels : Nat
  deriving DecidableEq, Repr

/-- Static initialisers of the buffer globals. -/
def DrawGlobals.initial : DrawGlobals := { buf1 := none, buf2 := none, draw_buf_pixels := 0 }

/-- Heap calls of one pass through the body of the retry loop, in order:
the allocation for `buf1` (bytes requested, pointer returned), the
allocation for `buf2`, then the pointers handed to `heap_caps_free`. -/
structure Round where
  buf_lines : Nat
  req1 : Nat
  got1 : Option Nat
  req2 : Nat
  got2 : Option Nat
  freed : List Nat
  deriving DecidableEq, Repr

/-- Both allocations of the round returned a buffer (`buf1 && buf2`). -/
def Round.succeeded (r : Round) : Bool := r.got1.isSome && r.got2.isSome

/-- Sizes passed to `heap_caps_malloc` over the rounds, in call order. -/
def malloc_requests : List Round → List Nat
  | [] => []
  | r :: rest => r.req1 :: r.req2 :: malloc_requests rest

/-- What `init_draw_buffers` returns and leaves behind. -/
structure InitResult (σ : Type) where
  ok : Bool
  globals : DrawGlobals
  heap : σ
  rounds : List Round

/-- The `while (buf_lines >= 24)` loop of `init_draw_buffers`.  `sz` is
`sizeof(lv_color_t)`, whose declaration belongs to the toolkit. -/
def draw_buffer_loop {σ : Type} (H : Heap σ) (sz scr_w : Nat)
    (buf_lines : Nat) (g : DrawGlobals) (h : σ) : InitResult σ :=
  if hb : buf_lines ≥ 24 then
    let buf_pixels := (scr_w * buf_lines) % 2 ^ 32
    let buf_bytes := (buf_pixels * sz) % 2 ^ size_t_bits
    let a1 := H.heap_caps_malloc h buf_bytes
    let g1 := { g with buf1 := a1.1 }
    let a2 := H.heap_caps_malloc a1.2 buf_bytes
    let g2 := { g1 with buf2 := a2.1 }
    if g2.buf1.isSome && g2.buf2.isSome then
      { ok := true
        globals := { g2 with draw_buf_pixels := buf_pixels }
        heap := a2.2
        rounds := [{ buf_lines := buf_lines, req1 := buf_bytes, got1 := a1.1,
                     req2 := buf_bytes, got2 := a2.1, freed := [] }] }
    else
      let f1 : DrawGlobals × σ × List Nat :=
        match g2.buf1 with
        | some p => ({ g2 with buf1 := none }, H.heap_caps_free a2.2 p, [p])
        | none => (g2, a2.2, [])
      let f2 : DrawGlobals × σ × List Nat :=
        match f1.1.buf2 with
        | some p => ({ f1.1 with buf2 := none }, H.heap_caps_free f1.2.1 p, f1.2.2 ++ [p])
        | none => f1
      let rest := draw_buffer_loop H sz scr_w (buf_lines / 2) f2.1 f2.2.1
      { rest with
        rounds := { buf_lines := buf_lines, req1 := buf_bytes, got1 := a1.1,
                    req2 := buf_bytes, got2 := a2.1, freed := f2.2.2 } :: rest.rounds }
  else
    { ok := false, globals := g, heap := h, rounds := [] }
termination_by buf_lines
decreasing_by omega

/-- `init_draw_buffers(scr_w, scr_h)` run on globals `g` and heap `h`. -/
def init_draw_buffers {σ : Type} (H : Heap σ) (sz scr_w scr_h : Nat)
    (g : DrawGlobals) (h : σ) : InitResult σ :=
  let buf_lines := 120
  let buf_lines := if buf_lines > scr_h then scr_h else buf_lines
  draw_buffer_loop H sz scr_w buf_lines g h

/-- A heap on which every allocation succeeds (bump allocator from address 1). -/
def heap_unbounded : Heap Nat :=
  { heap_caps_malloc := fun h n => (some (h + 1), h + 1 + n)
    heap_caps_free := fun h _ => h }

/-- A heap with a byte budget: the state holds the bytes left, the next
fresh address and the live blocks (address, size).  An allocation succeeds
when it fits; a free gives the bytes of the block back. -/
def heap_capacity : Heap (Nat × Nat × List (Nat × Nat)) :=
  { heap_caps_malloc := fun h n =>
      if n ≤ h.1 then (some h.2.1, (h.1 - n, h.2.1 + n, (h.2.1, n) :: h.2.2)) else (none, h)
    heap_caps_free := fun h p =>
      match h.2.2.find? (fun b => b.1 == p) with
      | some b => (h.1 + b.2, h.2.1, h.2.2.filter (fun c => c.1 != p))
      | none => h }

/-- The heap after the calls logged for one round are made on heap `h`. -/
def replay_round {σ : Type} (H : Heap σ) (h : σ) (r : Round) : σ :=
  r.freed.foldl H.heap_caps_free
    (H.heap_caps_malloc (H.heap_caps_malloc h r.req1).2 r.req2).2

/-- The pointers logged for a round are what the heap returns for its two
requests, made in order from heap `h`. -/
def round_consistent {σ : Type} (H : Heap σ) (h : σ) (r : Round) : Prop :=
  (H.heap_caps_malloc h r.req1).1 = r.got1 ∧
    (H.heap_caps_malloc (H.heap_caps_malloc h r.req1).2 r.req2).1 = r.got2

/-- Every logged round agrees with the heap, each one starting from the heap
its predecessor left. -/
def rounds_consistent {σ : Type} (H : Heap σ) (h : σ) : List Round → Prop
  | [] => True
  | r :: rest => round_consistent H h r ∧ rounds_consistent H (replay_round H h r) rest

/-- The heap after all logged rounds. -/
def replay_heap {σ : Type} (H : Heap σ) (h : σ) (rounds : List Round) : σ :=
  rounds.foldl (replay_round H) h

/-- A heap on which every allocation fails. -/
def heap_exhausted : Heap Unit :=
  { heap_caps_malloc := fun _ _ => (none, ())
    heap_caps_free := fun _ _ => () }

/-! ## Tick and render loop -/

/-- Unsigned 32-bit subtraction `a - b`. -/
def sub_u32 (a b : Nat) : Nat := (a + (4294967296 - b % 4294967296)) % 4294967296

/-- Conversion of an `int32_t` to `uint32_t`. -/
def to_u32 (x : Int) : Nat := (x % 4294967296).toNat

/-- A rectangle handed to the flush callback. -/
structure lv_area_t where
  x1 : Int
  y1 : Int
  x2 : Int
  y2 : Int
  deriving DecidableEq, Repr

/-- Library calls made by `loop()` and by the flush callback. -/
inductive Action
  | M5_update
  | lv_tick_inc (tick_period : Nat)
  | lv_timer_handler
  | startWrite
  | setAddrWindow (x y w h : Int)
  | pushPixels (len : Nat)
  | endWrite
  | lv_display_flush_ready
  | display
  | delay (ms : Nat)
  deriving DecidableEq, Repr

/-- Globals of the loop: `last_ms`, the function-static `last_handler_ms`
and the `frame_dirty` flag. -/
structure LoopState where
  last_ms : Nat
  last_handler_ms : Nat
  frame_dirty : Bool
  deriving DecidableEq, Repr

/-- `lvgl_flush_cb(disp, area, px_map)`. -/
def lvgl_flush_cb (s : LoopState) (area : lv_area_t) : LoopState × List Action :=
  let w := wrap_int32 (area.x2 - area.x1 + 1)
  let h := wrap_int32 (area.y2 - area.y1 + 1)
  ({ s with frame_dirty := true },
   [Action.startWrite, Action.setAddrWindow area.x1 area.y1 w h,
    Action.pushPixels ((to_u32 w * to_u32 h) % 4294967296), Action.endWrite,
    Action.lv_display_flush_ready])

/-- One run of the toolkit's `lv_timer_handler()`: it calls the registered
flush callback once for every rendered area, in order. -/
def lv_timer_handler (s : LoopState) (areas : List lv_area_t) : LoopState × List Action :=
  areas.foldl
    (fun acc area => ((lvgl_flush_cb acc.1 area).1, acc.2 ++ (lvgl_flush_cb acc.1 area).2))
    (s, [Action.lv_timer_handler])

/-- One iteration of `loop()`.  `now` is the reading of `millis()`, `areas`
the areas the toolkit renders if its handler runs in this iteration. -/
def loop (s : LoopState) (now : Nat) (areas : List lv_area_t) : LoopState × List Action :=
  let acts := [Action.M5_update, Action.lv_tick_inc (sub_u32 now s.last_ms)]
  let s := { s with last_ms := now }
  if sub_u32 now s.last_handler_ms ≥ 33 then
    let r := lv_timer_handler s areas
    let p : LoopState × List Action :=
      if r.1.frame_dirty then
        ({ r.1 with frame_dirty := false }, acts ++ r.2 ++ [Action.display])
      else (r.1, acts ++ r.2)
    ({ p.1 with last_handler_ms := now }, p.2 ++ [Action.delay 1])
  else
    (s, acts ++ [Action.delay 1])

/-- Consecutive iterations of `loop()`; the result holds the final globals
and the action log of every iteration. -/
def loop_run (s : LoopState) : List (Nat × List lv_area_t) → LoopState × List (List Action)
  | [] => (s, [])
  | (now, areas) :: rest =>
      ((loop_run (loop s now areas).1 rest).1,
       (loop s now areas).2 :: (loop_run (loop s now areas).1 rest).2)

/-- Arguments of the `lv_tick_inc` calls in an action log. -/
def tick_args : List Action → List Nat
  | [] => []
  | Action.lv_tick_inc d :: rest => d :: tick_args rest
  | _ :: rest => tick_args rest

/-- Readings of `millis()` at which `lv_timer_handler` was invoked during a run. -/
def handler_times (s : LoopState) : List (Nat × List lv_area_t) → List Nat
  | [] => []
  | (now, areas) :: rest =>
      if Action.lv_timer_handler ∈ (loop s now areas).2 then
        now :: handler_times (loop s now areas).1 rest
      else handler_times (loop s now areas).1 rest

/-- Arguments of all `lv_tick_inc` calls of a run, iteration by iteration. -/
def tick_log : List (List Action) → List Nat
  | [] => []
  | acts :: rest => tick_args acts ++ tick_log rest

/-- Calls made by the flush callback for a list of areas (they do not depend
on the globals). -/
def flush_log : List lv_area_t → List Action
  | [] => []
  | area :: rest => (lvgl_flush_cb ⟨0, 0, false⟩ area).2 ++ flush_log rest

/-- Wrapped differences between consecutive readings, starting after `prev`. -/
def deltas (prev : Nat) : List Nat → List Nat
  | [] => []
  | n :: rest => sub_u32 n prev :: deltas n rest

/-! ## Setup -/

/-- Library calls of `setup()` that create or register something, and its
diagnostic output. -/
inductive SetupCall
  | Serial_println (msg : String)
  | lv_display_create (w h : Nat)
  | lv_display_set_flush_cb
  | lv_display_set_buffers (buf1 buf2 : Option Nat) (buf_size : Nat)
  | lv_indev_create
  | lv_label_create
  | lv_btn_create
  | lv_slider_create
  | lv_arc_create
  deriving DecidableEq, Repr

/-- How `setup()` ends: in the endless `delay(1000)` loop, or by returning
with the widgets built and `last_ms` taken from `millis()`. -/
inductive SetupOutcome (σ : Type)
  | stalled (calls : List SetupCall) (init : InitResult σ)
  | returned (calls : List SetupCall) (init : InitResult σ) (ui : UiState) (lp : LoopState)

/-- `setup()` on a `scr_w` x `scr_h` display.  Styling, alignment and the
layout arithmetic have no effect on the state modelled here and are left out
of the call log. -/
def setup {σ : Type} (H : Heap σ) (sz scr_w scr_h : Nat) (h : σ) (millis : Nat) :
    SetupOutcome σ :=
  let r := init_draw_buffers H sz scr_w scr_h DrawGlobals.initial h
  if !r.ok then
    SetupOutcome.stalled [SetupCall.Serial_println "LVGL draw buffer allocation failed"] r
  else
    SetupOutcome.returned
      [SetupCall.lv_display_create scr_w scr_h,
       SetupCall.lv_display_set_flush_cb,
       SetupCall.lv_display_set_buffers r.globals.buf1 r.globals.buf2
         ((r.globals.draw_buf_pixels * sz) % 2 ^ size_t_bits % 2 ^ 32),
       SetupCall.lv_indev_create,
       SetupCall.lv_label_create, SetupCall.lv_btn_create, SetupCall.lv_label_create,
       SetupCall.lv_label_create, SetupCall.lv_slider_create, SetupCall.lv_label_create,
       SetupCall.lv_label_create, SetupCall.lv_arc_create, SetupCall.lv_label_create]
      r setup_widgets
      { last_ms := millis, last_handler_ms := 0, frame_dirty := false }

/-! ## Value propagation: lemmas -/

theorem clamp_eq_max_min (v : Int) :
    (if (if v < 0 then 0 else v) > 100 then 100 else (if v < 0 then 0 else v))
      = max 0 (min 100 v) := by
  split_ifs <;> omega

theorem set_demo_value_shows (s : UiState) (v : Int) :
    shows (set_demo_value s v) (max 0 (min 100 v)) := by
  simp only [shows, set_demo_value, clamp_eq_max_min, and_self]

theorem set_demo_value_shows_self (s : UiState) (v : Int) (h0 : 0 ≤ v) (h1 : v ≤ 100) :
    shows (set_demo_value s v) v := by
  have h := set_demo_value_shows s v
  have e : max 0 (min 100 v) = v := by omega
  rwa [e] at h

theorem set_demo_value_counter (s : UiState) (v : Int) :
    (set_demo_value s v).tap_count = s.tap_count ∧
      (set_demo_value s v).counter_label = s.counter_label := by
  simp [set_demo_value]

theorem on_tap_button_shows (s : UiState) (h0 : 0 ≤ s.arc) (h1 : s.arc ≤ 100) :
    shows (on_tap_button s lv_event_code_t.LV_EVENT_CLICKED)
      (if s.arc + 10 ≤ 100 then s.arc + 10 else 0) := by
  have hw : wrap_int32 (s.arc + 10) = s.arc + 10 := by
    unfold wrap_int32; omega
  simp only [on_tap_button, update_counter_label, if_true, hw]
  by_cases h : s.arc + 10 ≤ 100
  · rw [if_pos h, if_neg (by omega)]
    exact set_demo_value_shows_self _ _ (by omega) h
  · rw [if_neg h, if_pos (by omega)]
    exact set_demo_value_shows_self _ _ (by omega) (by omega)

theorem ui_step_shows (s : UiState) (e : UiEvent)
    (hs : ∃ c, 0 ≤ c ∧ c ≤ 100 ∧ shows s c) :
    ∃ c, 0 ≤ c ∧ c ≤ 100 ∧ shows (ui_step s e) c := by
  obtain ⟨c, h0, h1, hc⟩ := hs
  have clamp : ∀ (t : UiState) (v : Int),
      ∃ c, 0 ≤ c ∧ c ≤ 100 ∧ shows (set_demo_value t v) c := fun t v =>
    ⟨max 0 (min 100 v), by omega, by omega, set_demo_value_shows t v⟩
  cases e with
  | button_event code =>
      by_cases hcode : code = lv_event_code_t.LV_EVENT_CLICKED
      · subst hcode
        have ha : s.arc = c := hc.2.1
        refine ⟨_, ?_, ?_, on_tap_button_shows s (by omega) (by omega)⟩ <;>
          split_ifs <;> omega
      · exact ⟨c, h0, h1, by simpa [ui_step, on_tap_button, hcode] using hc⟩
  | slider_changed v => simpa [ui_step, on_slider_change] using clamp _ v
  | arc_changed v => simpa [ui_step, on_arc_change] using clamp _ v
  | slider_event code =>
      by_cases hcode : code = lv_event_code_t.LV_EVENT_VALUE_CHANGED
      · simpa [ui_step, on_slider_change, hcode] using clamp s s.slider_obj
      · exact ⟨c, h0, h1, by simpa [ui_step, on_slider_change, hcode] using hc⟩
  | arc_event code =>
      by_cases hcode : code = lv_event_code_t.LV_EVENT_VALUE_CHANGED
      · simpa [ui_step, on_arc_change, hcode] using clamp s s.arc
      · exact ⟨c, h0, h1, by simpa [ui_step, on_arc_change, hcode] using hc⟩

theorem ui_run_shows (evs : List UiEvent) (s : UiState)
    (hs : ∃ c, 0 ≤ c ∧ c ≤ 100 ∧ shows s c) :
    ∃ c, 0 ≤ c ∧ c ≤ 100 ∧ shows (ui_run s evs) c := by
  induction evs generalizing s with
  | nil => simpa [ui_run] using hs
  | cons e rest ih => exact ih (ui_step s e) (ui_step_shows s e hs)

theorem setup_widgets_shows : shows setup_widgets 20 := by
  refine ⟨rfl, rfl, ?_, ?_⟩ <;> decide

theorem setup_widgets_range : ∃ c, 0 ≤ c ∧ c ≤ 100 ∧ shows setup_widgets c :=
  ⟨20, by omega, by omega, setup_widgets_shows⟩

theorem on_tap_button_counter (s : UiState)
    (lo : -2147483648 ≤ s.tap_count) (hi : s.tap_count < 2147483647) :
    (on_tap_button s lv_event_code_t.LV_EVENT_CLICKED).tap_count = s.tap_count + 1 ∧
      (on_tap_button s lv_event_code_t.LV_EVENT_CLICKED).counter_label
        = "Taps: " ++ fmt_d (s.tap_count + 1) := by
  have hw : wrap_int32 (s.tap_count + 1) = s.tap_count + 1 := by
    unfold wrap_int32; omega
  simp [on_tap_button, update_counter_label, set_demo_value, hw]

theorem on_tap_button_other (s : UiState) (code : lv_event_code_t)
    (h : code ≠ lv_event_code_t.LV_EVENT_CLICKED) : on_tap_button s code = s := by
  simp [on_tap_button, h]

theorem on_slider_change_counter (s : UiState) (code : lv_event_code_t) :
    (on_slider_change s code).tap_count = s.tap_count ∧
      (on_slider_change s code).counter_label = s.counter_label := by
  unfold on_slider_change
  split_ifs
  · exact set_demo_value_counter _ _
  · exact ⟨rfl, rfl⟩

theorem on_arc_change_counter (s : UiState) (code : lv_event_code_t) :
    (on_arc_change s code).tap_count = s.tap_count ∧
      (on_arc_change s code).counter_label = s.counter_label := by
  unfold on_arc_change
  split_ifs
  · exact set_demo_value_counter _ _
  · exact ⟨rfl, rfl⟩

theorem ui_step_counter (s : UiState) (e : UiEvent)
    (he : e ≠ UiEvent.button_event lv_event_code_t.LV_EVENT_CLICKED) :
    (ui_step s e).tap_count = s.tap_count ∧
      (ui_step s e).counter_label = s.counter_label := by
  cases e with
  | button_event code =>
      have hcode : code ≠ lv_event_code_t.LV_EVENT_CLICKED := fun h => he (by rw [h])
      simp [ui_step, on_tap_button_other s code hcode]
  | slider_changed v => exact on_slider_change_counter _ _
  | arc_changed v => exact on_arc_change_counter _ _
  | slider_event code => exact on_slider_change_counter _ _
  | arc_event code => exact on_arc_change_counter _ _

theorem clicks_cons (e : UiEvent) (rest : List UiEvent) :
    clicks (e :: rest) = clicks rest +
      (if e = UiEvent.button_event lv_event_code_t.LV_EVENT_CLICKED then 1 else 0) := by
  simp [clicks, List.count_cons]

theorem ui_run_counter (evs : List UiEvent) (s : UiState)
    (h0 : 0 ≤ s.tap_count)
    (hl : s.counter_label = "Taps: " ++ fmt_d s.tap_count)
    (hb : s.tap_count + clicks evs < 2147483648) :
    (ui_run s evs).tap_count = s.tap_count + clicks evs ∧
      (ui_run s evs).counter_label = "Taps: " ++ fmt_d (s.tap_count + clicks evs) := by
  induction evs generalizing s with
  | nil => simp [ui_run, clicks, hl]
  | cons e rest ih =>
      rw [clicks_cons] at hb ⊢
      have hrun : ui_run s (e :: rest) = ui_run (ui_step s e) rest := rfl
      rw [hrun]
      by_cases he : e = UiEvent.button_event lv_event_code_t.LV_EVENT_CLICKED
      · subst he
        rw [if_pos rfl] at hb ⊢
        have hstep := on_tap_button_counter s (by omega) (by push_cast at hb; omega)
        have hstep1 : (ui_step s (UiEvent.button_event lv_event_code_t.LV_EVENT_CLICKED)).tap_count
            = s.tap_count + 1 := hstep.1
        have hstep2 :
            (ui_step s (UiEvent.button_event lv_event_code_t.LV_EVENT_CLICKED)).counter_label
            = "Taps: " ++ fmt_d (s.tap_count + 1) := hstep.2
        have := ih (ui_step s (UiEvent.button_event lv_event_code_t.LV_EVENT_CLICKED))
          (by rw [hstep1]; omega) (by rw [hstep2, hstep1]) (by rw [hstep1]; push_cast at hb ⊢; omega)
        rw [hstep1] at this
        have e1 : s.tap_count + 1 + (clicks rest : Int) = s.tap_count + ((clicks rest + 1 : Nat) : Int) := by
          push_cast; ring
        rw [e1] at this
        exact this
      · rw [if_neg he] at hb ⊢
        have hstep := ui_step_counter s e he
        have := ih (ui_step s e) (by rw [hstep.1]; exact h0) (by rw [hstep.2, hstep.1, hl])
          (by rw [hstep.1]; simpa using hb)
        rw [hstep.1] at this
        simpa using this

/-! ## Draw buffers: lemmas -/

theorem draw_buffer_loop_stop {σ : Type} (H : Heap σ) (sz scr_w n : Nat)
    (g : DrawGlobals) (h : σ) (hn : n < 24) :
    draw_buffer_loop H sz scr_w n g h = { ok := false, globals := g, heap := h, rounds := [] } := by
  rw [draw_buffer_loop]
  simp [Nat.not_le.mpr hn]

theorem draw_buffer_loop_step {σ : Type} (H : Heap σ) (sz scr_w n : Nat)
    (g : DrawGlobals) (h : σ) (hn : 24 ≤ n) :
    ∃ (r : Round) (h' : σ),
      r.buf_lines = n ∧ r.req1 = (scr_w * n % 2 ^ 32 * sz) % 2 ^ 32 ∧
      r.req2 = (scr_w * n % 2 ^ 32 * sz) % 2 ^ 32 ∧
      ((r.succeeded = true ∧ r.freed = [] ∧
          draw_buffer_loop H sz scr_w n g h =
            { ok := true
              globals := { buf1 := r.got1, buf2 := r.got2, draw_buf_pixels := scr_w * n % 2 ^ 32 }
              heap := h', rounds := [r] }) ∨
       (r.succeeded = false ∧ r.freed = r.got1.toList ++ r.got2.toList ∧
          draw_buffer_loop H sz scr_w n g h =
            { ok := (draw_buffer_loop H sz scr_w (n / 2) ⟨none, none, g.draw_buf_pixels⟩ h').ok
              globals :=
                (draw_buffer_loop H sz scr_w (n / 2) ⟨none, none, g.draw_buf_pixels⟩ h').globals
              heap := (draw_buffer_loop H sz scr_w (n / 2) ⟨none, none, g.draw_buf_pixels⟩ h').heap
              rounds := r ::
                (draw_buffer_loop H sz scr_w (n / 2) ⟨none, none, g.draw_buf_pixels⟩ h').rounds })) := by
  rw [draw_buffer_loop]
  simp only [ge_iff_le, hn, dite_true, size_t_bits]
  rcases e1 : H.heap_caps_malloc h (scr_w * n % 2 ^ 32 * sz % 2 ^ 32) with ⟨p1, h1⟩
  rcases e2 : H.heap_caps_malloc h1 (scr_w * n % 2 ^ 32 * sz % 2 ^ 32) with ⟨p2, h2⟩
  cases p1 with
  | none =>
      cases p2 with
      | none =>
          exact ⟨⟨n, _, none, _, none, []⟩, h2, rfl, rfl, rfl, Or.inr ⟨rfl, rfl, by simp⟩⟩
      | some q2 =>
          exact ⟨⟨n, _, none, _, some q2, [q2]⟩, H.heap_caps_free h2 q2, rfl, rfl, rfl,
            Or.inr ⟨rfl, rfl, by simp⟩⟩
  | some q1 =>
      cases p2 with
      | none =>
          exact ⟨⟨n, _, some q1, _, none, [q1]⟩, H.heap_caps_free h2 q1, rfl, rfl, rfl,
            Or.inr ⟨rfl, rfl, by simp⟩⟩
      | some q2 =>
          exact ⟨⟨n, _, some q1, _, some q2, []⟩, h2, rfl, rfl, rfl,
            Or.inl ⟨rfl, rfl, by simp⟩⟩

theorem draw_buffer_loop_rounds {σ : Type} (H : Heap σ) (sz scr_w : Nat) :
    ∀ (n : Nat) (g : DrawGlobals) (h : σ),
      ∀ r ∈ (draw_buffer_loop H sz scr_w n g h).rounds,
        24 ≤ r.buf_lines ∧ r.buf_lines ≤ n ∧
        r.req1 = (scr_w * r.buf_lines % 2 ^ 32 * sz) % 2 ^ 32 ∧
        r.req2 = (scr_w * r.buf_lines % 2 ^ 32 * sz) % 2 ^ 32 ∧
        r.freed = (if r.succeeded then [] else r.got1.toList ++ r.got2.toList) := by
  intro n
  induction n using Nat.strong_induction_on with
  | _ n ih =>
    intro g h r hr
    by_cases hn : n < 24
    · rw [draw_buffer_loop_stop H sz scr_w n g h hn] at hr
      simp at hr
    · obtain ⟨r0, h', hl, hbytes, hbytes2, hcase⟩ :=
        draw_buffer_loop_step H sz scr_w n g h (Nat.le_of_not_lt hn)
      have hr0 : r0.succeeded = true ∨ r0.succeeded = false := by
        cases r0.succeeded <;> simp
      have first : 24 ≤ r0.buf_lines ∧ r0.buf_lines ≤ n ∧
          r0.req1 = (scr_w * r0.buf_lines % 2 ^ 32 * sz) % 2 ^ 32 ∧
          r0.req2 = (scr_w * r0.buf_lines % 2 ^ 32 * sz) % 2 ^ 32 ∧
          r0.freed = (if r0.succeeded then [] else r0.got1.toList ++ r0.got2.toList) := by
        refine ⟨by omega, by omega, by rw [hbytes, hl], by rw [hbytes2, hl], ?_⟩
        rcases hcase with ⟨hs, hf, _⟩ | ⟨hs, hf, _⟩
        · rw [hs, hf]; rfl
        · rw [hs, hf]; rfl
      rcases hcase with ⟨_, _, heq⟩ | ⟨_, _, heq⟩
      · rw [heq] at hr
        simp only [List.mem_singleton] at hr
        rw [hr]; exact first
      · rw [heq] at hr
        simp only [List.mem_cons] at hr
        rcases hr with hr | hr
        · rw [hr]; exact first
        · obtain ⟨a, b, c, d⟩ := ih (n / 2) (by omega) _ _ r hr
          exact ⟨a, by omega, c, d⟩

theorem draw_buffer_loop_lines {σ : Type} (H : Heap σ) (sz scr_w : Nat) :
    ∀ (n : Nat) (g : DrawGlobals) (h : σ) (i : Nat),
      ∀ r ∈ (draw_buffer_loop H sz scr_w n g h).rounds[i]?, r.buf_lines = n / 2 ^ i := by
  intro n
  induction n using Nat.strong_induction_on with
  | _ n ih =>
    intro g h i r hr
    by_cases hn : n < 24
    · rw [draw_buffer_loop_stop H sz scr_w n g h hn] at hr
      simp at hr
    · obtain ⟨r0, h', hl, _, _, hcase⟩ :=
        draw_buffer_loop_step H sz scr_w n g h (Nat.le_of_not_lt hn)
      cases i with
      | zero =>
          rcases hcase with ⟨_, _, heq⟩ | ⟨_, _, heq⟩ <;>
            · rw [heq] at hr
              simp at hr
              rw [← hr]; simpa using hl
      | succ k =>
          rcases hcase with ⟨_, _, heq⟩ | ⟨_, _, heq⟩
          · rw [heq] at hr
            simp at hr
          · rw [heq] at hr
            simp only [List.getElem?_cons_succ] at hr
            rw [ih (n / 2) (by omega) _ _ k r hr, Nat.div_div_eq_div_mul, pow_succ, Nat.mul_comm]

theorem draw_buffer_loop_length {σ : Type} (H : Heap σ) (sz scr_w : Nat) :
    ∀ (k n : Nat) (g : DrawGlobals) (h : σ), n < 24 * 2 ^ k →
      (draw_buffer_loop H sz scr_w n g h).rounds.length ≤ k := by
  intro k
  induction k with
  | zero =>
      intro n g h hn
      rw [draw_buffer_loop_stop H sz scr_w n g h (by simpa using hn)]
      simp
  | succ k ih =>
      intro n g h hn
      by_cases hlt : n < 24
      · rw [draw_buffer_loop_stop H sz scr_w n g h hlt]
        simp
      · obtain ⟨r0, h', _, _, _, hcase⟩ :=
          draw_buffer_loop_step H sz scr_w n g h (Nat.le_of_not_lt hlt)
        rcases hcase with ⟨_, _, heq⟩ | ⟨_, _, heq⟩
        · rw [heq]; simp
        · rw [heq]
          have := ih (n / 2) ⟨none, none, g.draw_buf_pixels⟩ h' (by rw [pow_succ] at hn; omega)
          simpa using this

theorem draw_buffer_loop_ok {σ : Type} (H : Heap σ) (sz scr_w : Nat) :
    ∀ (n : Nat) (g : DrawGlobals) (h : σ),
      (draw_buffer_loop H sz scr_w n g h).ok = true →
      ∃ (failed : List Round) (last : Round),
        (draw_buffer_loop H sz scr_w n g h).rounds = failed ++ [last] ∧
        (∀ r ∈ failed, r.succeeded = false) ∧ last.succeeded = true ∧
        (draw_buffer_loop H sz scr_w n g h).globals =
          { buf1 := last.got1, buf2 := last.got2,
            draw_buf_pixels := scr_w * last.buf_lines % 2 ^ 32 } := by
  intro n
  induction n using Nat.strong_induction_on with
  | _ n ih =>
    intro g h hok
    by_cases hn : n < 24
    · rw [draw_buffer_loop_stop H sz scr_w n g h hn] at hok
      simp at hok
    · obtain ⟨r0, h', hl, _, _, hcase⟩ :=
        draw_buffer_loop_step H sz scr_w n g h (Nat.le_of_not_lt hn)
      rcases hcase with ⟨hs, _, heq⟩ | ⟨hs, _, heq⟩
      · rw [heq]
        exact ⟨[], r0, rfl, by simp, hs, by rw [hl]⟩
      · rw [heq] at hok ⊢
        obtain ⟨failed, last, e, hf, hlast, hg⟩ := ih (n / 2) (by omega) _ _ hok
        refine ⟨r0 :: failed, last, by simp [e], ?_, hlast, hg⟩
        intro r hr
        simp only [List.mem_cons] at hr
        rcases hr with hr | hr
        · rw [hr]; exact hs
        · exact hf r hr

theorem draw_buffer_loop_fail {σ : Type} (H : Heap σ) (sz scr_w : Nat) :
    ∀ (n : Nat) (g : DrawGlobals) (h : σ),
      (draw_buffer_loop H sz scr_w n g h).ok = false →
      (∀ r ∈ (draw_buffer_loop H sz scr_w n g h).rounds, r.succeeded = false) ∧
      ((draw_buffer_loop H sz scr_w n g h).globals = g ∨
       (draw_buffer_loop H sz scr_w n g h).globals = ⟨none, none, g.draw_buf_pixels⟩) := by
  intro n
  induction n using Nat.strong_induction_on with
  | _ n ih =>
    intro g h hok
    by_cases hn : n < 24
    · rw [draw_buffer_loop_stop H sz scr_w n g h hn]
      simp
    · obtain ⟨r0, h', _, _, _, hcase⟩ :=
        draw_buffer_loop_step H sz scr_w n g h (Nat.le_of_not_lt hn)
      rcases hcase with ⟨_, _, heq⟩ | ⟨hs, _, heq⟩
      · rw [heq] at hok
        simp at hok
      · rw [heq] at hok ⊢
        obtain ⟨hall, hg⟩ := ih (n / 2) (by omega) _ _ hok
        refine ⟨?_, ?_⟩
        · intro r hr
          simp only [List.mem_cons] at hr
          rcases hr with hr | hr
          · rw [hr]; exact hs
          · exact hall r hr
        · right
          rcases hg with hg | hg <;> simpa using hg

/-! ## Tick and render loop: lemmas -/

theorem sub_u32_eq_emod (a b : Nat) :
    ((sub_u32 a b : Nat) : Int) = ((a : Int) - (b : Int)) % 4294967296 := by
  unfold sub_u32
  omega

theorem lv_timer_handler_fold (areas : List lv_area_t) :
    ∀ (s : LoopState) (acts : List Action),
      areas.foldl
        (fun acc area => ((lvgl_flush_cb acc.1 area).1, acc.2 ++ (lvgl_flush_cb acc.1 area).2))
        (s, acts)
      = ({ s with frame_dirty := s.frame_dirty || !areas.isEmpty }, acts ++ flush_log areas) := by
  induction areas with
  | nil => intro s acts; simp [flush_log]
  | cons a rest ih =>
      intro s acts
      rw [List.foldl_cons, ih]
      simp [flush_log, lvgl_flush_cb]

theorem lv_timer_handler_eq (s : LoopState) (areas : List lv_area_t) :
    lv_timer_handler s areas =
      ({ s with frame_dirty := s.frame_dirty || !areas.isEmpty },
       Action.lv_timer_handler :: flush_log areas) := by
  unfold lv_timer_handler
  rw [lv_timer_handler_fold]
  rfl

theorem flush_log_mem (areas : List lv_area_t) (a : Action) (h : a ∈ flush_log areas) :
    a = Action.startWrite ∨ (∃ x y w h, a = Action.setAddrWindow x y w h) ∨
      (∃ n, a = Action.pushPixels n) ∨ a = Action.endWrite ∨
      a = Action.lv_display_flush_ready := by
  induction areas with
  | nil => simp [flush_log] at h
  | cons area rest ih =>
      simp only [flush_log, lvgl_flush_cb, List.mem_append, List.mem_cons] at h
      rcases h with (h | h | h | h | h | h) | h
      · exact Or.inl h
      · exact Or.inr (Or.inl ⟨_, _, _, _, h⟩)
      · exact Or.inr (Or.inr (Or.inl ⟨_, h⟩))
      · exact Or.inr (Or.inr (Or.inr (Or.inl h)))
      · exact Or.inr (Or.inr (Or.inr (Or.inr h)))
      · simp at h
      · exact ih h

theorem flush_log_no_handler (areas : List lv_area_t) :
    Action.lv_timer_handler ∉ flush_log areas := by
  intro h
  rcases flush_log_mem areas _ h with h | ⟨_, _, _, _, h⟩ | ⟨_, h⟩ | h | h <;> cases h

theorem flush_log_no_display (areas : List lv_area_t) :
    Action.display ∉ flush_log areas := by
  intro h
  rcases flush_log_mem areas _ h with h | ⟨_, _, _, _, h⟩ | ⟨_, h⟩ | h | h <;> cases h

theorem tick_args_append (l1 l2 : List Action) :
    tick_args (l1 ++ l2) = tick_args l1 ++ tick_args l2 := by
  induction l1 with
  | nil => rfl
  | cons a rest ih => cases a <;> simp [tick_args, ih]

theorem tick_args_flush_log (areas : List lv_area_t) : tick_args (flush_log areas) = [] := by
  induction areas with
  | nil => rfl
  | cons a rest ih => simp [flush_log, lvgl_flush_cb, tick_args, ih]

/-- The iteration written out: the globals it leaves and the calls it makes. -/
theorem loop_eq (s : LoopState) (now : Nat) (areas : List lv_area_t) :
    loop s now areas =
      if 33 ≤ sub_u32 now s.last_handler_ms then
        ({ last_ms := now, last_handler_ms := now, frame_dirty := false },
         [Action.M5_update, Action.lv_tick_inc (sub_u32 now s.last_ms), Action.lv_timer_handler]
           ++ flush_log areas
           ++ (if s.frame_dirty || !areas.isEmpty then [Action.display] else [])
           ++ [Action.delay 1])
      else
        ({ last_ms := now, last_handler_ms := s.last_handler_ms, frame_dirty := s.frame_dirty },
         [Action.M5_update, Action.lv_tick_inc (sub_u32 now s.last_ms), Action.delay 1]) := by
  unfold loop
  simp only [lv_timer_handler_eq, ge_iff_le]
  by_cases hg : 33 ≤ sub_u32 now s.last_handler_ms
  · rw [if_pos hg, if_pos hg]
    by_cases hd : (s.frame_dirty || !areas.isEmpty) = true
    · simp [hd]
    · simp only [hd]
      simp at hd
      simp [hd]
  · rw [if_neg hg, if_neg hg]
    rfl

theorem loop_state (s : LoopState) (now : Nat) (areas : List lv_area_t) :
    (loop s now areas).1 =
      if 33 ≤ sub_u32 now s.last_handler_ms then
        { last_ms := now, last_handler_ms := now, frame_dirty := false }
      else { last_ms := now, last_handler_ms := s.last_handler_ms, frame_dirty := s.frame_dirty } := by
  rw [loop_eq]
  split_ifs <;> rfl

theorem loop_ticks (s : LoopState) (now : Nat) (areas : List lv_area_t) :
    tick_args (loop s now areas).2 = [sub_u32 now s.last_ms] := by
  rw [loop_eq]
  split_ifs <;>
    simp [tick_args, tick_args_append, tick_args_flush_log]

theorem loop_handler_iff (s : LoopState) (now : Nat) (areas : List lv_area_t) :
    Action.lv_timer_handler ∈ (loop s now areas).2 ↔ 33 ≤ sub_u32 now s.last_handler_ms := by
  rw [loop_eq]
  have hf := flush_log_no_handler areas
  split_ifs with hg hd <;> simp [hg, hf]

theorem loop_handler_count (s : LoopState) (now : Nat) (areas : List lv_area_t) :
    (loop s now areas).2.count Action.lv_timer_handler ≤ 1 := by
  rw [loop_eq]
  have hf := List.count_eq_zero.mpr (flush_log_no_handler areas)
  split_ifs with hg hd <;> simp [List.count_cons, hf]

theorem loop_display_iff (s : LoopState) (now : Nat) (areas : List lv_area_t) :
    Action.display ∈ (loop s now areas).2 ↔
      33 ≤ sub_u32 now s.last_handler_ms ∧ (s.frame_dirty = true ∨ areas ≠ []) := by
  rw [loop_eq]
  have hf := flush_log_no_display areas
  by_cases hg : 33 ≤ sub_u32 now s.last_handler_ms
  · rw [if_pos hg]
    by_cases hd : (s.frame_dirty || !areas.isEmpty) = true
    · have hd2 : s.frame_dirty = true ∨ areas ≠ [] := by
        simpa [List.isEmpty_iff] using hd
      simp [hd, hg, hd2]
    · have hd2 : ¬ (s.frame_dirty = true ∨ areas ≠ []) := by
        simpa [List.isEmpty_iff] using hd
      simp only [hd]
      simp [hf, hg, hd2]
  · rw [if_neg hg]
    simp [hg]

theorem loop_display_count (s : LoopState) (now : Nat) (areas : List lv_area_t) :
    (loop s now areas).2.count Action.display ≤ 1 := by
  rw [loop_eq]
  have hf := List.count_eq_zero.mpr (flush_log_no_display areas)
  split_ifs with hg hd <;> simp [List.count_cons, hf]

theorem loop_run_clean (inputs : List (Nat × List lv_area_t)) :
    ∀ s : LoopState, s.frame_dirty = false → (loop_run s inputs).1.frame_dirty = false := by
  induction inputs with
  | nil => intro s hs; simpa [loop_run] using hs
  | cons x rest ih =>
      intro s hs
      obtain ⟨now, areas⟩ := x
      simp only [loop_run]
      apply ih
      rw [loop_state]
      split_ifs
      · rfl
      · exact hs

theorem handler_times_chain (inputs : List (Nat × List lv_area_t)) :
    ∀ s : LoopState,
      List.Chain (fun t t' => 33 ≤ sub_u32 t' t) s.last_handler_ms (handler_times s inputs) := by
  induction inputs with
  | nil => intro s; simp [handler_times]
  | cons x rest ih =>
      intro s
      obtain ⟨now, areas⟩ := x
      simp only [handler_times]
      have hst := loop_state s now areas
      by_cases hg : 33 ≤ sub_u32 now s.last_handler_ms
      · rw [if_pos ((loop_handler_iff s now areas).mpr hg)]
        rw [if_pos hg] at hst
        refine List.Chain.cons hg ?_
        have := ih (loop s now areas).1
        rw [hst] at this ⊢
        exact this
      · rw [if_neg (fun h => hg ((loop_handler_iff s now areas).mp h))]
        rw [if_neg hg] at hst
        have := ih (loop s now areas).1
        rw [hst] at this ⊢
        exact this

theorem loop_run_ticks (inputs : List (Nat × List lv_area_t)) :
    ∀ s : LoopState,
      tick_log (loop_run s inputs).2 = deltas s.last_ms (inputs.map Prod.fst) ∧
      (loop_run s inputs).1.last_ms = (inputs.map Prod.fst).getLastD s.last_ms := by
  induction inputs with
  | nil => intro s; simp [loop_run, tick_log, deltas]
  | cons x rest ih =>
      intro s
      obtain ⟨now, areas⟩ := x
      have hlast : (loop s now areas).1.last_ms = now := by
        rw [loop_state]; split_ifs <;> rfl
      obtain ⟨h1, h2⟩ := ih (loop s now areas).1
      rw [hlast] at h1 h2
      constructor
      · simp only [loop_run, tick_log, List.map_cons, deltas, loop_ticks, h1]
        rfl
      · simp only [loop_run, List.map_cons, h2]
        cases rest <;> simp [List.getLastD]

theorem deltas_sum (ns : List Nat) :
    ∀ prev : Nat,
      (((deltas prev ns).sum : Nat) : Int) % 4294967296
        = (((ns.getLastD prev : Nat) : Int) - (prev : Int)) % 4294967296 := by
  induction ns with
  | nil => intro prev; simp [deltas]
  | cons n rest ih =>
      intro prev
      have h := ih n
      have e : (n :: rest).getLastD prev = rest.getLastD n := by
        cases rest <;> simp [List.getLastD]
      rw [e]
      simp only [deltas, List.sum_cons]
      have hs := sub_u32_eq_emod n prev
      rw [Nat.cast_add]
      omega

theorem draw_buffer_loop_step_heap {σ : Type} (H : Heap σ) (sz scr_w n : Nat)
    (g : DrawGlobals) (h : σ) (hn : 24 ≤ n) :
    ∃ r : Round,
      r.buf_lines = n ∧ round_consistent H h r ∧
      ((r.succeeded = true ∧
          draw_buffer_loop H sz scr_w n g h =
            { ok := true
              globals := { buf1 := r.got1, buf2 := r.got2, draw_buf_pixels := scr_w * n % 2 ^ 32 }
              heap := replay_round H h r, rounds := [r] }) ∨
       (r.succeeded = false ∧
          draw_buffer_loop H sz scr_w n g h =
            { ok := (draw_buffer_loop H sz scr_w (n / 2) ⟨none, none, g.draw_buf_pixels⟩
                (replay_round H h r)).ok
              globals := (draw_buffer_loop H sz scr_w (n / 2) ⟨none, none, g.draw_buf_pixels⟩
                (replay_round H h r)).globals
              heap := (draw_buffer_loop H sz scr_w (n / 2) ⟨none, none, g.draw_buf_pixels⟩
                (replay_round H h r)).heap
              rounds := r :: (draw_buffer_loop H sz scr_w (n / 2) ⟨none, none, g.draw_buf_pixels⟩
                (replay_round H h r)).rounds })) := by
  rw [draw_buffer_loop]
  simp only [ge_iff_le, hn, dite_true, size_t_bits]
  generalize scr_w * n % 2 ^ 32 * sz % 2 ^ 32 = bytes
  rcases e1 : H.heap_caps_malloc h bytes with ⟨p1, h1⟩
  rcases e2 : H.heap_caps_malloc h1 bytes with ⟨p2, h2⟩
  cases p1 with
  | none =>
      cases p2 with
      | none =>
          exact ⟨⟨n, bytes, none, bytes, none, []⟩, rfl, by simp [round_consistent, e1, e2],
            Or.inr ⟨rfl, by simp [replay_round, e1, e2]⟩⟩
      | some q2 =>
          exact ⟨⟨n, bytes, none, bytes, some q2, [q2]⟩, rfl, by simp [round_consistent, e1, e2],
            Or.inr ⟨rfl, by simp [replay_round, e1, e2]⟩⟩
  | some q1 =>
      cases p2 with
      | none =>
          exact ⟨⟨n, bytes, some q1, bytes, none, [q1]⟩, rfl, by simp [round_consistent, e1, e2],
            Or.inr ⟨rfl, by simp [replay_round, e1, e2]⟩⟩
      | some q2 =>
          exact ⟨⟨n, bytes, some q1, bytes, some q2, []⟩, rfl, by simp [round_consistent, e1, e2],
            Or.inl ⟨rfl, by simp [replay_round, e1, e2]⟩⟩

theorem draw_buffer_loop_heap {σ : Type} (H : Heap σ) (sz scr_w : Nat) :
    ∀ (n : Nat) (g : DrawGlobals) (h : σ),
      rounds_consistent H h (draw_buffer_loop H sz scr_w n g h).rounds ∧
      (draw_buffer_loop H sz scr_w n g h).heap
        = replay_heap H h (draw_buffer_loop H sz scr_w n g h).rounds := by
  intro n
  induction n using Nat.strong_induction_on with
  | _ n ih =>
    intro g h
    by_cases hn : n < 24
    · rw [draw_buffer_loop_stop H sz scr_w n g h hn]
      exact ⟨trivial, rfl⟩
    · obtain ⟨r0, _, hc, hcase⟩ :=
        draw_buffer_loop_step_heap H sz scr_w n g h (Nat.le_of_not_lt hn)
      rcases hcase with ⟨_, heq⟩ | ⟨_, heq⟩
      · rw [heq]
        exact ⟨⟨hc, trivial⟩, rfl⟩
      · rw [heq]
        obtain ⟨h1, h2⟩ := ih (n / 2) (by omega) ⟨none, none, g.draw_buf_pixels⟩
          (replay_round H h r0)
        exact ⟨⟨hc, h1⟩, h2⟩

theorem draw_buffer_loop_first {σ : Type} (H : Heap σ) (sz scr_w n : Nat)
    (g : DrawGlobals) (h : σ) :
    (∃ x, (draw_buffer_loop H sz scr_w n g h).rounds[0]? = some x) ↔ 24 ≤ n := by
  by_cases hn : n < 24
  · rw [draw_buffer_loop_stop H sz scr_w n g h hn]
    simp
    omega
  · obtain ⟨r0, _, _, hcase⟩ :=
      draw_buffer_loop_step_heap H sz scr_w n g h (Nat.le_of_not_lt hn)
    rcases hcase with ⟨_, heq⟩ | ⟨_, heq⟩ <;>
      · rw [heq]
        simp
        omega

theorem draw_buffer_loop_next {σ : Type} (H : Heap σ) (sz scr_w : Nat) :
    ∀ (n : Nat) (g : DrawGlobals) (h : σ) (i : Nat),
      (∃ y, (draw_buffer_loop H sz scr_w n g h).rounds[i + 1]? = some y) ↔
        ((∃ x, (draw_buffer_loop H sz scr_w n g h).rounds[i]? = some x ∧ x.succeeded = false) ∧
          24 ≤ n / 2 ^ (i + 1)) := by
  intro n
  induction n using Nat.strong_induction_on with
  | _ n ih =>
    intro g h i
    by_cases hn : n < 24
    · rw [draw_buffer_loop_stop H sz scr_w n g h hn]
      simp
    · obtain ⟨r0, _, _, hcase⟩ :=
        draw_buffer_loop_step_heap H sz scr_w n g h (Nat.le_of_not_lt hn)
      rcases hcase with ⟨hs, heq⟩ | ⟨hs, heq⟩
      · rw [heq]
        cases i with
        | zero => simp [hs]
        | succ k => simp
      · rw [heq]
        have hdiv : ∀ k, n / 2 / 2 ^ k = n / 2 ^ (k + 1) := by
          intro k
          rw [Nat.div_div_eq_div_mul, pow_succ, Nat.mul_comm]
        cases i with
        | zero =>
            simp only [List.getElem?_cons_succ, List.getElem?_cons_zero, zero_add, pow_one]
            rw [draw_buffer_loop_first]
            simp [hs]
        | succ k =>
            simp only [List.getElem?_cons_succ]
            rw [ih (n / 2) (by omega) _ _ k, hdiv (k + 1)]

theorem malloc_requests_length (rounds : List Round) :
    (malloc_requests rounds).length = 2 * rounds.length := by
  induction rounds with
  | nil => rfl
  | cons r rest ih => simp [malloc_requests, ih]; omega

/-! ## Setup: lemmas -/

theorem init_draw_buffers_eq {σ : Type} (H : Heap σ) (sz scr_w scr_h : Nat)
    (g : DrawGlobals) (h : σ) :
    init_draw_buffers H sz scr_w scr_h g h = draw_buffer_loop H sz scr_w (min 120 scr_h) g h := by
  unfold init_draw_buffers
  have e : (if 120 > scr_h then scr_h else 120) = min 120 scr_h := by
    split_ifs <;> omega
  simp only [e]

theorem setup_returned {σ : Type} (H : Heap σ) (sz scr_w scr_h : Nat) (h : σ) (millis : Nat)
    (hok : (init_draw_buffers H sz scr_w scr_h DrawGlobals.initial h).ok = true) :
    setup H sz scr_w scr_h h millis =
      SetupOutcome.returned
        [SetupCall.lv_display_create scr_w scr_h,
         SetupCall.lv_display_set_flush_cb,
         SetupCall.lv_display_set_buffers
           (init_draw_buffers H sz scr_w scr_h DrawGlobals.initial h).globals.buf1
           (init_draw_buffers H sz scr_w scr_h DrawGlobals.initial h).globals.buf2
           (((init_draw_buffers H sz scr_w scr_h DrawGlobals.initial h).globals.draw_buf_pixels
              * sz) % 2 ^ 32),
         SetupCall.lv_indev_create,
         SetupCall.lv_label_create, SetupCall.lv_btn_create, SetupCall.lv_label_create,
         SetupCall.lv_label_create, SetupCall.lv_slider_create, SetupCall.lv_label_create,
         SetupCall.lv_label_create, SetupCall.lv_arc_create, SetupCall.lv_label_create]
        (init_draw_buffers H sz scr_w scr_h DrawGlobals.initial h) setup_widgets
        { last_ms := millis, last_handler_ms := 0, frame_dirty := false } := by
  unfold setup
  simp [hok, size_t_bits]

theorem setup_stalled {σ : Type} (H : Heap σ) (sz scr_w scr_h : Nat) (h : σ) (millis : Nat)
    (hok : (init_draw_buffers H sz scr_w scr_h DrawGlobals.initial h).ok = false) :
    setup H sz scr_w scr_h h millis =
      SetupOutcome.stalled [SetupCall.Serial_println "LVGL draw buffer allocation failed"]
        (init_draw_buffers H sz scr_w scr_h DrawGlobals.initial h) := by
  unfold setup
  simp [hok]

theorem setup_loop_state {σ : Type} (H : Heap σ) (sz scr_w scr_h : Nat) (h : σ) (millis : Nat)
    (calls : List SetupCall) (init : InitResult σ) (ui : UiState) (lp : LoopState)
    (e : setup H sz scr_w scr_h h millis = SetupOutcome.returned calls init ui lp) :
    ui = setup_widgets ∧ lp = { last_ms := millis, last_handler_ms := 0, frame_dirty := false } := by
  cases hok : (init_draw_buffers H sz scr_w scr_h DrawGlobals.initial h).ok with
  | false =>
      rw [setup_stalled H sz scr_w scr_h h millis hok] at e
      cases e
  | true =>
      rw [setup_returned H sz scr_w scr_h h millis hok] at e
      injection e with _ _ e3 e4
      exact ⟨e3.symm, e4.symm⟩

/-! ## The properties of the specification -/

/-- C1: after `on_slider_change` (resp. `on_arc_change`) handles a
`LV_EVENT_VALUE_CHANGED` event while the slider (resp. the arc) holds a value
`v` in [0,100], the slider, the arc and both labels all show `v`, whatever
the state was before.  The state built by `setup` shows 20 everywhere, with
the label texts "Slider: 20" and "20", and in every state reached from it by
any sequence of events the four components show one common value. -/
theorem C1_slider_arc_labels_agree :
    (∀ (s : UiState) (v : Int), 0 ≤ v → v ≤ 100 →
      shows (on_slider_change { s with slider_obj := v }
        lv_event_code_t.LV_EVENT_VALUE_CHANGED) v ∧
      shows (on_arc_change { s with arc := v } lv_event_code_t.LV_EVENT_VALUE_CHANGED) v) ∧
    shows setup_widgets 20 ∧
    setup_widgets.slider_label = "Slider: 20" ∧ setup_widgets.arc_value_label = "20" ∧
    (∀ evs : List UiEvent, ∃ v, shows (ui_run setup_widgets evs) v) := by
  refine ⟨?_, setup_widgets_shows, rfl, rfl, ?_⟩
  · intro s v h0 h1
    constructor
    · simpa [on_slider_change] using set_demo_value_shows_self { s with slider_obj := v } v h0 h1
    · simpa [on_arc_change] using set_demo_value_shows_self { s with arc := v } v h0 h1
  · intro evs
    obtain ⟨c, _, _, hc⟩ := ui_run_shows evs setup_widgets setup_widgets_range
    exact ⟨c, hc⟩

/-- C1 at a concrete input: dragging the slider to 73 in the state left by
`setup` makes all four components show 73. -/
theorem C1_slider_to_73 :
    (on_slider_change { setup_widgets with slider_obj := 73 }
        lv_event_code_t.LV_EVENT_VALUE_CHANGED).arc = 73 ∧
    (on_slider_change { setup_widgets with slider_obj := 73 }
        lv_event_code_t.LV_EVENT_VALUE_CHANGED).arc_value_label = "73" :=
  ⟨(C1_slider_arc_labels_agree.1 setup_widgets 73 (by decide) (by decide)).1.2.1,
   (C1_slider_arc_labels_agree.1 setup_widgets 73 (by decide) (by decide)).1.2.2.2⟩

/-- C2: for every argument `v`, `set_demo_value v` writes the one value
`c = max 0 (min 100 v)` to the slider, the arc and both labels; the written
values lie in [0,100]; `c = v` when `v` is in [0,100]; and calling it again
with the value it wrote changes nothing.  In every state reached from the
`setup` state by any sequence of events, slider, arc and both labels show a
common value in [0,100]. -/
theorem C2_values_clamped :
    (∀ (s : UiState) (v : Int),
      shows (set_demo_value s v) (max 0 (min 100 v)) ∧
      (0 ≤ (set_demo_value s v).slider_obj ∧ (set_demo_value s v).slider_obj ≤ 100) ∧
      (0 ≤ (set_demo_value s v).arc ∧ (set_demo_value s v).arc ≤ 100) ∧
      (0 ≤ v → v ≤ 100 → shows (set_demo_value s v) v) ∧
      set_demo_value (set_demo_value s v) (set_demo_value s v).arc = set_demo_value s v) ∧
    (∀ evs : List UiEvent, ∃ c, 0 ≤ c ∧ c ≤ 100 ∧ shows (ui_run setup_widgets evs) c) := by
  refine ⟨?_, fun evs => ui_run_shows evs setup_widgets setup_widgets_range⟩
  intro s v
  have hs := set_demo_value_shows s v
  refine ⟨hs, ?_, ?_, set_demo_value_shows_self s v, ?_⟩
  · rw [hs.1]; omega
  · rw [hs.2.1]; omega
  · rw [hs.2.1]
    have hc := clamp_eq_max_min (max 0 (min 100 v))
    have e : max 0 (min 100 (max 0 (min 100 v))) = max 0 (min 100 v) := by omega
    rw [e] at hc
    simp only [set_demo_value, clamp_eq_max_min, hc]

/-- C2 at concrete inputs: 250 is written as 100 and -7 as 0. -/
theorem C2_clamps_250_and_minus_7 :
    (set_demo_value setup_widgets 250).slider_label = "Slider: 100" ∧
    (set_demo_value setup_widgets (-7)).arc_value_label = "0" :=
  ⟨(C2_values_clamped.1 setup_widgets 250).1.2.2.1,
   (C2_values_clamped.1 setup_widgets (-7)).1.2.2.2⟩

/-- C3: when the arc holds a value `c` in [0,100], a `LV_EVENT_CLICKED`
event handled by `on_tap_button` leaves the slider, the arc and both labels
showing `c + 10` if `c + 10 <= 100`, and 0 otherwise. -/
theorem C3_tap_adds_ten_wraps_to_zero (s : UiState) (h0 : 0 ≤ s.arc) (h1 : s.arc ≤ 100) :
    shows (on_tap_button s lv_event_code_t.LV_EVENT_CLICKED)
      (if s.arc + 10 ≤ 100 then s.arc + 10 else 0) :=
  on_tap_button_shows s h0 h1

/-- C3 at a concrete input: from 95 a tap goes to 0. -/
theorem C3_tap_from_95 :
    shows (on_tap_button { setup_widgets with arc := 95 } lv_event_code_t.LV_EVENT_CLICKED) 0 :=
  C3_tap_adds_ten_wraps_to_zero { setup_widgets with arc := 95 } (by decide) (by decide)

/-- C4, as stated, fails where `int` runs out: with `tap_count` at
2147483647 a click does not yield `tap_count + 1`. -/
theorem C4_increment_overflows :
    (on_tap_button { setup_widgets with tap_count := 2147483647 }
        lv_event_code_t.LV_EVENT_CLICKED).tap_count ≠ 2147483647 + 1 := by
  decide

/-- C4, amended: in every state whose `tap_count` is an `int` below
2147483647, `on_tap_button` with `LV_EVENT_CLICKED` yields
`tap_count + 1` and the counter label "Taps: " followed by that number;
`on_tap_button` with any other code, and `on_slider_change` and
`on_arc_change` with any code, leave `tap_count` and the counter label
unchanged.  `setup` gives `tap_count = 0` and the label "Taps: 0", and after
any event sequence with fewer than 2^31 clicks `tap_count` is the number of
clicks and the label shows it. -/
theorem C4_tap_counter_counts_clicks :
    (∀ s : UiState, -2147483648 ≤ s.tap_count → s.tap_count < 2147483647 →
      (on_tap_button s lv_event_code_t.LV_EVENT_CLICKED).tap_count = s.tap_count + 1 ∧
      (on_tap_button s lv_event_code_t.LV_EVENT_CLICKED).counter_label
        = "Taps: " ++ fmt_d (s.tap_count + 1)) ∧
    (∀ (s : UiState) (code : lv_event_code_t), code ≠ lv_event_code_t.LV_EVENT_CLICKED →
      (on_tap_button s code).tap_count = s.tap_count ∧
      (on_tap_button s code).counter_label = s.counter_label) ∧
    (∀ (s : UiState) (code : lv_event_code_t),
      (on_slider_change s code).tap_count = s.tap_count ∧
      (on_slider_change s code).counter_label = s.counter_label ∧
      (on_arc_change s code).tap_count = s.tap_count ∧
      (on_arc_change s code).counter_label = s.counter_label) ∧
    setup_widgets.tap_count = 0 ∧ setup_widgets.counter_label = "Taps: 0" ∧
    (∀ evs : List UiEvent, clicks evs < 2147483648 →
      (ui_run setup_widgets evs).tap_count = clicks evs ∧
      (ui_run setup_widgets evs).counter_label = "Taps: " ++ fmt_d (clicks evs)) := by
  refine ⟨on_tap_button_counter, ?_, ?_, rfl, by decide, ?_⟩
  · intro s code h
    rw [on_tap_button_other s code h]
    exact ⟨rfl, rfl⟩
  · intro s code
    exact ⟨(on_slider_change_counter s code).1, (on_slider_change_counter s code).2,
      (on_arc_change_counter s code).1, (on_arc_change_counter s code).2⟩
  · intro evs hb
    have h := ui_run_counter evs setup_widgets (by decide) (by decide)
      (by
        have e : setup_widgets.tap_count = 0 := rfl
        rw [e]; omega)
    have e : setup_widgets.tap_count = 0 := rfl
    rw [e] at h
    simpa using h

/-- C4 at a concrete input: two clicks with a slider change and a press in
between leave `tap_count = 2` and the label "Taps: 2". -/
theorem C4_two_clicks :
    (ui_run setup_widgets
      [UiEvent.button_event lv_event_code_t.LV_EVENT_CLICKED, UiEvent.slider_changed 50,
       UiEvent.button_event lv_event_code_t.LV_EVENT_PRESSED,
       UiEvent.button_event lv_event_code_t.LV_EVENT_CLICKED]).counter_label = "Taps: 2" :=
  (C4_tap_counter_counts_clicks.2.2.2.2.2 _ (by decide)).2

/-- C5: `frame_dirty` is false when `setup` returns, hence at the start of
the first `loop()` iteration, and false at the end of every iteration of any
run that starts clean.  The flush callback sets it, and `lv_timer_handler`
leaves it set exactly when it was set before or the callback ran at least
once.  In an iteration that starts clean, `M5.Display.display()` is called
if and only if the handler ran and flushed at least one area, and at most
once; an iteration in which the handler ran ends with the flag cleared, one
in which it did not run leaves the flag as it was. -/
theorem C5_frame_dirty_between_render_and_push :
    (∀ {σ : Type} (H : Heap σ) (sz scr_w scr_h : Nat) (h : σ) (millis : Nat)
        (calls : List SetupCall) (init : InitResult σ) (ui : UiState) (lp : LoopState),
      setup H sz scr_w scr_h h millis = SetupOutcome.returned calls init ui lp →
        lp.frame_dirty = false) ∧
    (∀ (s : LoopState) (inputs : List (Nat × List lv_area_t)),
      s.frame_dirty = false → (loop_run s inputs).1.frame_dirty = false) ∧
    (∀ (s : LoopState) (area : lv_area_t), (lvgl_flush_cb s area).1.frame_dirty = true) ∧
    (∀ (s : LoopState) (areas : List lv_area_t),
      (lv_timer_handler s areas).1.frame_dirty = (s.frame_dirty || !areas.isEmpty)) ∧
    (∀ (s : LoopState) (now : Nat) (areas : List lv_area_t), s.frame_dirty = false →
      (Action.display ∈ (loop s now areas).2 ↔
        (Action.lv_timer_handler ∈ (loop s now areas).2 ∧ areas ≠ []))) ∧
    (∀ (s : LoopState) (now : Nat) (areas : List lv_area_t),
      (loop s now areas).2.count Action.display ≤ 1 ∧
      (Action.lv_timer_handler ∈ (loop s now areas).2 →
        (loop s now areas).1.frame_dirty = false) ∧
      (Action.lv_timer_handler ∉ (loop s now areas).2 →
        (loop s now areas).1.frame_dirty = s.frame_dirty)) := by
  refine ⟨?_, fun s inputs hs => loop_run_clean inputs s hs, fun s area => rfl, ?_, ?_, ?_⟩
  · intro σ H sz scr_w scr_h h millis calls init ui lp e
    rw [(setup_loop_state H sz scr_w scr_h h millis calls init ui lp e).2]
  · intro s areas
    rw [lv_timer_handler_eq]
  · intro s now areas hs
    rw [loop_display_iff, loop_handler_iff, hs]
    simp
  · intro s now areas
    refine ⟨loop_display_count s now areas, ?_, ?_⟩
    · intro hh
      rw [loop_state, if_pos ((loop_handler_iff s now areas).mp hh)]
    · intro hh
      rw [loop_state, if_neg (fun hg => hh ((loop_handler_iff s now areas).mpr hg))]

/-- C5 at a concrete input: 40 ms after the last handler run, with one
rendered area, the display is pushed and the flag ends cleared. -/
theorem C5_push_after_flush :
    Action.display ∈ (loop ⟨5, 0, false⟩ 40 [⟨0, 0, 9, 9⟩]).2 ∧
    (loop_run ⟨5, 0, false⟩ [(40, [⟨0, 0, 9, 9⟩])]).1.frame_dirty = false :=
  ⟨(C5_frame_dirty_between_render_and_push.2.2.2.2.1 ⟨5, 0, false⟩ 40 [⟨0, 0, 9, 9⟩] rfl).mpr
      ⟨by decide, by decide⟩,
   C5_frame_dirty_between_render_and_push.2.1 ⟨5, 0, false⟩ [(40, [⟨0, 0, 9, 9⟩])] rfl⟩

/-- C6: `setup` reaches `lv_display_create` if and only if
`init_draw_buffers` returned true, and then goes on to register the buffers
and create the input device and the widgets.  When `init_draw_buffers`
returned false, `setup` prints "LVGL draw buffer allocation failed" and
stalls, making no other call.  `init_draw_buffers` returns false exactly
when no round had both allocations succeed, and then `buf1` and `buf2` are
null and `draw_buf_pixels` is still 0. -/
theorem C6_allocation_failure_halts {σ : Type} (H : Heap σ) (sz scr_w scr_h : Nat)
    (h : σ) (millis : Nat) :
    ((∃ calls init ui lp,
        setup H sz scr_w scr_h h millis = SetupOutcome.returned calls init ui lp ∧
        SetupCall.lv_display_create scr_w scr_h ∈ calls ∧ SetupCall.lv_indev_create ∈ calls ∧
        SetupCall.lv_slider_create ∈ calls ∧ SetupCall.lv_arc_create ∈ calls) ↔
      (init_draw_buffers H sz scr_w scr_h DrawGlobals.initial h).ok = true) ∧
    ((init_draw_buffers H sz scr_w scr_h DrawGlobals.initial h).ok = false →
      setup H sz scr_w scr_h h millis =
        SetupOutcome.stalled [SetupCall.Serial_println "LVGL draw buffer allocation failed"]
          (init_draw_buffers H sz scr_w scr_h DrawGlobals.initial h)) ∧
    ((init_draw_buffers H sz scr_w scr_h DrawGlobals.initial h).ok = false ↔
      ∀ r ∈ (init_draw_buffers H sz scr_w scr_h DrawGlobals.initial h).rounds,
        r.succeeded = false) ∧
    ((init_draw_buffers H sz scr_w scr_h DrawGlobals.initial h).ok = false →
      (init_draw_buffers H sz scr_w scr_h DrawGlobals.initial h).globals.buf1 = none ∧
      (init_draw_buffers H sz scr_w scr_h DrawGlobals.initial h).globals.buf2 = none ∧
      (init_draw_buffers H sz scr_w scr_h DrawGlobals.initial h).globals.draw_buf_pixels = 0) := by
  refine ⟨⟨?_, ?_⟩, setup_stalled H sz scr_w scr_h h millis, ⟨?_, ?_⟩, ?_⟩
  · rintro ⟨calls, init, ui, lp, e, _⟩
    cases hok : (init_draw_buffers H sz scr_w scr_h DrawGlobals.initial h).ok with
    | true => rfl
    | false =>
        rw [setup_stalled H sz scr_w scr_h h millis hok] at e
        cases e
  · intro hok
    exact ⟨_, _, _, _, setup_returned H sz scr_w scr_h h millis hok, by simp, by simp, by simp,
      by simp⟩
  · intro hok
    rw [init_draw_buffers_eq] at hok ⊢
    exact (draw_buffer_loop_fail H sz scr_w _ _ _ hok).1
  · intro hall
    cases hok : (init_draw_buffers H sz scr_w scr_h DrawGlobals.initial h).ok with
    | false => rfl
    | true =>
        rw [init_draw_buffers_eq] at hok hall
        obtain ⟨failed, last, e, _, hlast, _⟩ := draw_buffer_loop_ok H sz scr_w _ _ _ hok
        have := hall last (by rw [e]; simp)
        rw [hlast] at this
        cases this
  · intro hok
    rw [init_draw_buffers_eq] at hok ⊢
    rcases (draw_buffer_loop_fail H sz scr_w _ _ _ hok).2 with hg | hg <;>
      · rw [hg]
        exact ⟨rfl, rfl, rfl⟩

/-- C6 at a concrete input: on a heap where every allocation fails, `setup`
on a 1280 x 720 display stalls after the diagnostic message. -/
theorem C6_stall_on_exhausted_heap :
    ∃ init, setup heap_exhausted 2 1280 720 () 0 =
      SetupOutcome.stalled [SetupCall.Serial_println "LVGL draw buffer allocation failed"] init :=
  ⟨_, (C6_allocation_failure_halts heap_exhausted 2 1280 720 () 0).2.1
    (by
      rw [init_draw_buffers_eq]
      have e : min 120 720 = 120 := rfl
      rw [e, draw_buffer_loop]; simp [heap_exhausted]
      rw [draw_buffer_loop]; simp [heap_exhausted]
      rw [draw_buffer_loop]; simp [heap_exhausted]
      rw [draw_buffer_loop]; simp)⟩

/-- C7, as stated, fails: on a 1280 x 720 display with every allocation
succeeding, `init_draw_buffers` returns true with `draw_buf_pixels = 153600`
(120 lines), not `1280 * 720 / 2 = 460800`. -/
theorem C7_not_half_a_screen :
    (init_draw_buffers heap_unbounded 2 1280 720 DrawGlobals.initial 0).ok = true ∧
    (init_draw_buffers heap_unbounded 2 1280 720 DrawGlobals.initial 0).globals.draw_buf_pixels
      = 153600 ∧
    (init_draw_buffers heap_unbounded 2 1280 720 DrawGlobals.initial 0).globals.draw_buf_pixels
      ≠ 1280 * 720 / 2 := by
  simp [init_draw_buffers, draw_buffer_loop, heap_unbounded, size_t_bits]

/-- C7, amended: whenever `init_draw_buffers` returns true, `buf1` and `buf2`
are the two non-null pointers of the last round, both were requested with
the same byte size, and `draw_buf_pixels = (scr_w * L) mod 2^32` where `L`,
the line count of that round, is `min 120 scr_h` halved zero, one or two
times, with `24 <= L <= 120` and `L <= scr_h`: each buffer is a strip of at
most 120 lines. -/
theorem C7_buffers_are_line_strips {σ : Type} (H : Heap σ) (sz scr_w scr_h : Nat) (h : σ)
    (hok : (init_draw_buffers H sz scr_w scr_h DrawGlobals.initial h).ok = true) :
    ∃ last ∈ (init_draw_buffers H sz scr_w scr_h DrawGlobals.initial h).rounds,
      (init_draw_buffers H sz scr_w scr_h DrawGlobals.initial h).globals.buf1 = last.got1 ∧
      (init_draw_buffers H sz scr_w scr_h DrawGlobals.initial h).globals.buf2 = last.got2 ∧
      last.got1 ≠ none ∧ last.got2 ≠ none ∧ last.req1 = last.req2 ∧
      (∃ i, i < 3 ∧ last.buf_lines = min 120 scr_h / 2 ^ i) ∧
      24 ≤ last.buf_lines ∧ last.buf_lines ≤ 120 ∧ last.buf_lines ≤ scr_h ∧
      (init_draw_buffers H sz scr_w scr_h DrawGlobals.initial h).globals.draw_buf_pixels
        = scr_w * last.buf_lines % 2 ^ 32 := by
  rw [init_draw_buffers_eq] at hok ⊢
  obtain ⟨failed, last, e, _, hlast, hg⟩ := draw_buffer_loop_ok H sz scr_w _ _ _ hok
  have hmem : last ∈ (draw_buffer_loop H sz scr_w (min 120 scr_h) DrawGlobals.initial h).rounds := by
    rw [e]; simp
  obtain ⟨h24, hle, hr1, hr2, _⟩ := draw_buffer_loop_rounds H sz scr_w _ _ _ last hmem
  have hlen := draw_buffer_loop_length H sz scr_w 3 (min 120 scr_h) DrawGlobals.initial h
    (by omega)
  have hidx : (draw_buffer_loop H sz scr_w (min 120 scr_h) DrawGlobals.initial h).rounds[failed.length]?
      = some last := by
    rw [e]; simp
  have hlines := draw_buffer_loop_lines H sz scr_w _ _ _ failed.length last (by rw [hidx]; rfl)
  have hfl : failed.length < 3 := by
    rw [e] at hlen
    simp at hlen
    omega
  have hs : last.got1.isSome = true ∧ last.got2.isSome = true := by
    simpa [Round.succeeded] using hlast
  refine ⟨last, hmem, by rw [hg], by rw [hg], ?_, ?_, by rw [hr1, hr2],
    ⟨failed.length, hfl, hlines⟩, h24, by omega, by omega, by rw [hg]⟩
  · intro hn; rw [hn] at hs; simp at hs
  · intro hn; rw [hn] at hs; simp at hs

/-- C7 (amended) at a concrete input: 1280 x 720 with every allocation
succeeding. -/
theorem C7_strip_on_1280_by_720 :
    ∃ last ∈ (init_draw_buffers heap_unbounded 2 1280 720 DrawGlobals.initial 0).rounds,
      24 ≤ last.buf_lines ∧ last.buf_lines ≤ 120 ∧
      (init_draw_buffers heap_unbounded 2 1280 720 DrawGlobals.initial 0).globals.draw_buf_pixels
        = 1280 * last.buf_lines % 2 ^ 32 := by
  obtain ⟨last, hm, _, _, _, _, _, _, h24, h120, _, hp⟩ :=
    C7_buffers_are_line_strips heap_unbounded 2 1280 720 0
      (by simp [init_draw_buffers, draw_buffer_loop, heap_unbounded, size_t_bits])
  exact ⟨last, hm, h24, h120, hp⟩

/-- C8: every `loop()` iteration calls `M5.update`, `lv_tick_inc` exactly
once and `delay(1)`; it calls `lv_timer_handler` (at most once, and
`display()` only together with it) if and only if
`(now - last_handler_ms) mod 2^32 >= 33`, and then stores
`last_handler_ms = now`, otherwise leaves `last_handler_ms` alone.  So over
any run the readings at which the handler ran, starting from the initial
`last_handler_ms`, are pairwise consecutive at least 33 ms of wrapped
32-bit time apart. -/
theorem C8_render_gate_33ms :
    (∀ (s : LoopState) (now : Nat) (areas : List lv_area_t),
      tick_args (loop s now areas).2 = [sub_u32 now s.last_ms] ∧
      Action.M5_update ∈ (loop s now areas).2 ∧ Action.delay 1 ∈ (loop s now areas).2 ∧
      (Action.lv_timer_handler ∈ (loop s now areas).2 ↔
        33 ≤ ((now : Int) - (s.last_handler_ms : Int)) % 4294967296) ∧
      (loop s now areas).2.count Action.lv_timer_handler ≤ 1 ∧
      (Action.display ∈ (loop s now areas).2 → Action.lv_timer_handler ∈ (loop s now areas).2) ∧
      (Action.lv_timer_handler ∈ (loop s now areas).2 →
        (loop s now areas).1.last_handler_ms = now) ∧
      (Action.lv_timer_handler ∉ (loop s now areas).2 →
        (loop s now areas).1.last_handler_ms = s.last_handler_ms)) ∧
    (∀ (s : LoopState) (inputs : List (Nat × List lv_area_t)),
      List.Chain (fun (t t' : Nat) => 33 ≤ ((t' : Int) - (t : Int)) % 4294967296)
        s.last_handler_ms (handler_times s inputs)) := by
  constructor
  · intro s now areas
    have hgate : 33 ≤ ((now : Int) - (s.last_handler_ms : Int)) % 4294967296 ↔
        33 ≤ sub_u32 now s.last_handler_ms := by
      rw [← sub_u32_eq_emod]; omega
    refine ⟨loop_ticks s now areas, ?_, ?_, ?_, loop_handler_count s now areas, ?_, ?_, ?_⟩
    · rw [loop_eq]; split_ifs <;> simp
    · rw [loop_eq]; split_ifs <;> simp
    · rw [hgate]; exact loop_handler_iff s now areas
    · intro hd
      exact (loop_handler_iff s now areas).mpr ((loop_display_iff s now areas).mp hd).1
    · intro hh
      rw [loop_state, if_pos ((loop_handler_iff s now areas).mp hh)]
    · intro hh
      rw [loop_state, if_neg (fun hg => hh ((loop_handler_iff s now areas).mpr hg))]
  · intro s inputs
    refine List.Chain.imp ?_ (handler_times_chain inputs s)
    intro t t' ht
    rw [← sub_u32_eq_emod]; omega

/-- C8 at a concrete input: the handler last ran at 4294967290 and `millis()`
has wrapped to 30, which is 36 ms later, so the gate opens. -/
theorem C8_gate_opens_across_wrap :
    Action.lv_timer_handler ∈ (loop ⟨4294967295, 4294967290, false⟩ 30 []).2 :=
  (C8_render_gate_33ms.1 ⟨4294967295, 4294967290, false⟩ 30 []).2.2.2.1.mpr (by decide)

/-- C9: for every heap behaviour and every `scr_w`, `scr_h`, the retry loop
of `init_draw_buffers` ends after at most 3 rounds, each making two
allocations (at most 6), and makes none, returning false, when `scr_h < 24`.
A first round is run exactly when `scr_h >= 24`, and round `i + 1` is run
exactly when round `i` failed and `min 120 scr_h / 2^(i+1)` is still at
least 24.  Round `i` uses `L = min 120 scr_h / 2^i` lines and requests
`((scr_w * L) mod 2^32 * sizeof(lv_color_t)) mod 2^32` bytes twice; the
logged pointers are what the heap returned and the final heap is the heap
after the logged calls.  A failed round frees exactly the buffers it
obtained before the next round starts, a successful one frees nothing.  The
result is true exactly when some round succeeded; on failure the globals are
untouched nulls and 0; on success only the last round succeeded, its line
count satisfies `24 <= L <= min 120 scr_h`, `buf1` and `buf2` are its two
pointers, `draw_buf_pixels = (scr_w * L) mod 2^32`, and the byte size `setup`
passes to `lv_display_set_buffers` is the size requested for each buffer. -/
theorem C9_retry_loop_is_bounded {σ : Type} (H : Heap σ) (sz scr_w scr_h : Nat) (h : σ) :
    (init_draw_buffers H sz scr_w scr_h DrawGlobals.initial h).rounds.length ≤ 3 ∧
    ((malloc_requests (init_draw_buffers H sz scr_w scr_h DrawGlobals.initial h).rounds).length
        = 2 * (init_draw_buffers H sz scr_w scr_h DrawGlobals.initial h).rounds.length ∧
      (malloc_requests (init_draw_buffers H sz scr_w scr_h DrawGlobals.initial h).rounds).length
        ≤ 6) ∧
    (scr_h < 24 →
      (init_draw_buffers H sz scr_w scr_h DrawGlobals.initial h).rounds = [] ∧
      (init_draw_buffers H sz scr_w scr_h DrawGlobals.initial h).ok = false) ∧
    ((∃ x, (init_draw_buffers H sz scr_w scr_h DrawGlobals.initial h).rounds[0]? = some x) ↔
      24 ≤ scr_h) ∧
    (∀ i : Nat,
      (∃ y, (init_draw_buffers H sz scr_w scr_h DrawGlobals.initial h).rounds[i + 1]? = some y) ↔
        ((∃ x, (init_draw_buffers H sz scr_w scr_h DrawGlobals.initial h).rounds[i]? = some x ∧
            x.succeeded = false) ∧
          24 ≤ min 120 scr_h / 2 ^ (i + 1))) ∧
    (∀ (i : Nat) (x : Round),
      (init_draw_buffers H sz scr_w scr_h DrawGlobals.initial h).rounds[i]? = some x →
        x.buf_lines = min 120 scr_h / 2 ^ i ∧ 24 ≤ x.buf_lines ∧
        x.req1 = (scr_w * x.buf_lines % 2 ^ 32 * sz) % 2 ^ 32 ∧ x.req2 = x.req1) ∧
    (rounds_consistent H h (init_draw_buffers H sz scr_w scr_h DrawGlobals.initial h).rounds ∧
      (init_draw_buffers H sz scr_w scr_h DrawGlobals.initial h).heap
        = replay_heap H h (init_draw_buffers H sz scr_w scr_h DrawGlobals.initial h).rounds) ∧
    (∀ x ∈ (init_draw_buffers H sz scr_w scr_h DrawGlobals.initial h).rounds,
      (x.succeeded = false → x.freed = x.got1.toList ++ x.got2.toList) ∧
      (x.succeeded = true → x.freed = [])) ∧
    ((init_draw_buffers H sz scr_w scr_h DrawGlobals.initial h).ok = true ↔
      ∃ x ∈ (init_draw_buffers H sz scr_w scr_h DrawGlobals.initial h).rounds,
        x.succeeded = true) ∧
    ((init_draw_buffers H sz scr_w scr_h DrawGlobals.initial h).ok = false →
      (init_draw_buffers H sz scr_w scr_h DrawGlobals.initial h).globals = DrawGlobals.initial) ∧
    ((init_draw_buffers H sz scr_w scr_h DrawGlobals.initial h).ok = true →
      ∃ (failed : List Round) (last : Round),
        (init_draw_buffers H sz scr_w scr_h DrawGlobals.initial h).rounds = failed ++ [last] ∧
        (∀ x ∈ failed, x.succeeded = false) ∧ last.succeeded = true ∧
        24 ≤ last.buf_lines ∧ last.buf_lines ≤ min 120 scr_h ∧
        (init_draw_buffers H sz scr_w scr_h DrawGlobals.initial h).globals =
          { buf1 := last.got1, buf2 := last.got2,
            draw_buf_pixels := scr_w * last.buf_lines % 2 ^ 32 } ∧
        last.req2 = last.req1 ∧
        ∀ millis : Nat, ∃ calls ui lp,
          setup H sz scr_w scr_h h millis =
            SetupOutcome.returned calls
              (init_draw_buffers H sz scr_w scr_h DrawGlobals.initial h) ui lp ∧
          SetupCall.lv_display_set_buffers last.got1 last.got2 last.req1 ∈ calls) := by
  have hlen : (init_draw_buffers H sz scr_w scr_h DrawGlobals.initial h).rounds.length ≤ 3 := by
    rw [init_draw_buffers_eq]
    exact draw_buffer_loop_length H sz scr_w 3 (min 120 scr_h) DrawGlobals.initial h (by omega)
  refine ⟨hlen, ⟨malloc_requests_length _, by rw [malloc_requests_length]; omega⟩,
    ?_, ?_, ?_, ?_, ?_, ?_, ⟨?_, ?_⟩, ?_, ?_⟩
  · intro hh
    rw [init_draw_buffers_eq, draw_buffer_loop_stop H sz scr_w _ _ _ (by omega)]
    exact ⟨rfl, rfl⟩
  · rw [init_draw_buffers_eq, draw_buffer_loop_first]
    omega
  · intro i
    rw [init_draw_buffers_eq]
    exact draw_buffer_loop_next H sz scr_w _ _ _ i
  · intro i x hx
    rw [init_draw_buffers_eq] at hx
    obtain ⟨h24, _, hr1, hr2, _⟩ :=
      draw_buffer_loop_rounds H sz scr_w _ _ _ x (List.getElem?_mem hx)
    exact ⟨draw_buffer_loop_lines H sz scr_w _ _ _ i x (by rw [hx]; rfl), h24, hr1,
      by rw [hr1, hr2]⟩
  · rw [init_draw_buffers_eq]
    exact draw_buffer_loop_heap H sz scr_w _ _ _
  · intro x hx
    rw [init_draw_buffers_eq] at hx
    have := (draw_buffer_loop_rounds H sz scr_w _ _ _ x hx).2.2.2.2
    constructor
    · intro hs
      rw [hs] at this
      simpa using this
    · intro hs
      rw [hs] at this
      simpa using this
  · intro hok
    rw [init_draw_buffers_eq] at hok ⊢
    obtain ⟨failed, last, e, _, hlast, _⟩ := draw_buffer_loop_ok H sz scr_w _ _ _ hok
    exact ⟨last, by rw [e]; simp, hlast⟩
  · rintro ⟨x, hx, hs⟩
    cases hok : (init_draw_buffers H sz scr_w scr_h DrawGlobals.initial h).ok with
    | true => rfl
    | false =>
        rw [init_draw_buffers_eq] at hok hx
        have := (draw_buffer_loop_fail H sz scr_w _ _ _ hok).1 x hx
        rw [hs] at this
        cases this
  · intro hok
    rw [init_draw_buffers_eq] at hok ⊢
    rcases (draw_buffer_loop_fail H sz scr_w _ _ _ hok).2 with hg | hg <;> exact hg
  · intro hok
    have hset := fun millis => setup_returned H sz scr_w scr_h h millis hok
    rw [init_draw_buffers_eq] at hok
    obtain ⟨failed, last, e, hf, hlast, hg⟩ := draw_buffer_loop_ok H sz scr_w _ _ _ hok
    obtain ⟨h24, hle, hr1, hr2, _⟩ :=
      draw_buffer_loop_rounds H sz scr_w _ _ _ last (by rw [e]; simp)
    refine ⟨failed, last, by rw [init_draw_buffers_eq, e], hf, hlast, h24, hle,
      by rw [init_draw_buffers_eq, hg], by rw [hr1, hr2], ?_⟩
    intro millis
    refine ⟨_, _, _, hset millis, ?_⟩
    rw [init_draw_buffers_eq, hg, hr1]
    simp

/-- C9 at a concrete input: a 10-pixel-wide, 720-line display, 2-byte
pixels and a heap with 1500 bytes.  The 120-line round gets nothing, the
60-line round gets one buffer and frees it, the 30-line round gets both;
the third round exists because the second one failed with 30 lines left. -/
theorem C9_third_round_succeeds :
    (init_draw_buffers heap_capacity 2 10 720 DrawGlobals.initial (1500, 1, [])).rounds
      = [{ buf_lines := 120, req1 := 2400, got1 := none, req2 := 2400, got2 := none,
           freed := [] },
         { buf_lines := 60, req1 := 1200, got1 := some 1, req2 := 1200, got2 := none,
           freed := [1] },
         { buf_lines := 30, req1 := 600, got1 := some 1201, req2 := 600, got2 := some 1801,
           freed := [] }] ∧
    (init_draw_buffers heap_capacity 2 10 720 DrawGlobals.initial (1500, 1, [])).globals
      = { buf1 := some 1201, buf2 := some 1801, draw_buf_pixels := 300 } ∧
    (init_draw_buffers heap_capacity 2 10 720 DrawGlobals.initial (1500, 1, [])).ok = true ∧
    (init_draw_buffers heap_capacity 2 10 720 DrawGlobals.initial (1500, 1, [])).heap
      = (300, 2401, [(1801, 600), (1201, 600)]) := by
  have hr : (init_draw_buffers heap_capacity 2 10 720 DrawGlobals.initial (1500, 1, [])).rounds
      = [{ buf_lines := 120, req1 := 2400, got1 := none, req2 := 2400, got2 := none,
           freed := [] },
         { buf_lines := 60, req1 := 1200, got1 := some 1, req2 := 1200, got2 := none,
           freed := [1] },
         { buf_lines := 30, req1 := 600, got1 := some 1201, req2 := 600, got2 := some 1801,
           freed := [] }] := by
    rw [init_draw_buffers_eq]
    have e : min 120 720 = 120 := rfl
    rw [e, draw_buffer_loop]; simp [heap_capacity, size_t_bits]
    rw [draw_buffer_loop]; simp [heap_capacity, size_t_bits]
    rw [draw_buffer_loop]; simp [heap_capacity, size_t_bits]
  have hall := C9_retry_loop_is_bounded heap_capacity 2 10 720 (1500, 1, [])
  have hok : (init_draw_buffers heap_capacity 2 10 720 DrawGlobals.initial (1500, 1, [])).ok
      = true := by
    refine hall.2.2.2.2.2.2.2.2.1.mpr ?_
    rw [hr]
    exact ⟨_, List.mem_cons_of_mem _ (List.mem_cons_of_mem _ (List.mem_singleton.mpr rfl)), rfl⟩
  obtain ⟨failed, last, hrounds, _, _, _, _, hg, _⟩ := hall.2.2.2.2.2.2.2.2.2.2 hok
  have hlast : last = (⟨30, 600, some 1201, 600, some 1801, []⟩ : Round) := by
    rw [hr] at hrounds
    have := congrArg List.getLast? hrounds
    simpa using this.symm
  refine ⟨hr, by rw [hg, hlast]; decide, hok, ?_⟩
  rw [hall.2.2.2.2.2.2.1.2, hr]
  simp [replay_heap, replay_round, heap_capacity]

/-- C10: `setup` stores the reading of `millis()` in `last_ms`.  Over any run
of `loop()` iterations with readings `n_1 .. n_k`, started with
`last_ms = n_0`, the arguments of the `lv_tick_inc` calls are the wrapped
differences `(n_i - n_(i-1)) mod 2^32`, one for each iteration, their sum is
congruent to `n_k - n_0` modulo 2^32, and `last_ms = n_k` afterwards; none of
this depends on `last_handler_ms`, the flag or the areas rendered. -/
theorem C10_ticks_lose_no_time :
    (∀ {σ : Type} (H : Heap σ) (sz scr_w scr_h : Nat) (h : σ) (millis : Nat)
        (calls : List SetupCall) (init : InitResult σ) (ui : UiState) (lp : LoopState),
      setup H sz scr_w scr_h h millis = SetupOutcome.returned calls init ui lp →
        lp.last_ms = millis) ∧
    (∀ (s : LoopState) (inputs : List (Nat × List lv_area_t)),
      tick_log (loop_run s inputs).2 = deltas s.last_ms (inputs.map Prod.fst) ∧
      (((tick_log (loop_run s inputs).2).sum : Nat) : Int) % 4294967296
        = ((((inputs.map Prod.fst).getLastD s.last_ms : Nat) : Int) - (s.last_ms : Int))
            % 4294967296 ∧
      (loop_run s inputs).1.last_ms = (inputs.map Prod.fst).getLastD s.last_ms) ∧
    (∀ a b : Nat, ((sub_u32 a b : Nat) : Int) = ((a : Int) - (b : Int)) % 4294967296) := by
  refine ⟨?_, ?_, sub_u32_eq_emod⟩
  · intro σ H sz scr_w scr_h h millis calls init ui lp e
    rw [(setup_loop_state H sz scr_w scr_h h millis calls init ui lp e).2]
  · intro s inputs
    obtain ⟨h1, h2⟩ := loop_run_ticks inputs s
    refine ⟨h1, ?_, h2⟩
    rw [h1]
    exact deltas_sum _ _

/-- C10 at a concrete input: readings 4294967295, 10 and 50 after
`last_ms = 4294967290` give the ticks 5, 11 and 40, which add up to the 56 ms
that passed across the wrap. -/
theorem C10_ticks_across_wrap :
    tick_log (loop_run ⟨4294967290, 4294967290, false⟩
      [(4294967295, []), (10, [⟨0, 0, 9, 9⟩]), (50, [])]).2 = [5, 11, 40] :=
  (C10_ticks_lose_no_time.2.1 ⟨4294967290, 4294967290, false⟩
    [(4294967295, []), (10, [⟨0, 0, 9, 9⟩]), (50, [])]).1

end Tab5Demo
